import Mathlib

/-!
Verification development for the booking-backend repository: a shallow
embedding of the booking lifecycle controllers (bookingController.js,
adminBookingController.js), the Mongoose schemas (Booking, Customer,
Driver, Hotel) and their save-time validation, together with theorems
checking the natural-language specification against this embedding.

Conventions of the embedding:
- document identifiers are natural numbers (ObjectIds are opaque ids);
- timestamps are natural numbers supplied by the caller as a now argument;
- the external libphonenumber check isValidPhone is an abstract boolean
  parameter ivp of every definition that consults it (the library is an
  external collaborator); it is always applied to the trimmed string,
  matching the fact that validatePhoneNumber trims its input itself;
- JavaScript request-body values that may be a number or a string
  (numberOfBags) are modelled by the JsVal sum; parseInt and the Number
  cast are modelled on decimal notation (hex and exponent forms of
  JavaScript numeric strings are not distinguished, no claim depends on
  them);
- a Mongoose save that throws a ValidationError is modelled by returning
  the corresponding error response with the store unchanged, since the
  throw prevents the persist.
-/

/-- Status enumeration of the booking schema. -/
inductive BStatus
  | pending
  | confirmed
  | assigned
  | inProgress
  | completed
  | cancelled
  deriving DecidableEq, Repr

/-- String form of a status, as stored and as interpolated into messages. -/
def BStatus.str : BStatus → String
  | .pending => "pending"
  | .confirmed => "confirmed"
  | .assigned => "assigned"
  | .inProgress => "in_progress"
  | .completed => "completed"
  | .cancelled => "cancelled"

/-- Reading of a status string from a request body, mirroring the
validStatuses.includes checks of the admin controller. -/
def parseStatus (s : String) : Option BStatus :=
  if s = "pending" then some .pending
  else if s = "confirmed" then some .confirmed
  else if s = "assigned" then some .assigned
  else if s = "in_progress" then some .inProgress
  else if s = "completed" then some .completed
  else if s = "cancelled" then some .cancelled
  else none

/-- Request-body value that JavaScript may carry as a JSON number or as a
string, used for the numberOfBags field. -/
inductive JsVal
  | num (q : ℚ)
  | str (s : String)
  deriving DecidableEq, Repr

/-- Numeric value of a list of decimal digit characters. -/
def digitsToNat (cs : List Char) : Nat :=
  cs.foldl (fun acc c => acc * 10 + (c.toNat - 48)) 0

/-- Whitespace trim on both ends, the behaviour of the trim setters and of
the trim calls of the validators, implemented over the character list so
that the kernel can evaluate it. -/
def jsTrimList (cs : List Char) : List Char :=
  ((cs.dropWhile Char.isWhitespace).reverse.dropWhile Char.isWhitespace).reverse

/-- Whitespace trim of a string. -/
def jsTrim (s : String) : String :=
  ⟨jsTrimList s.toList⟩

/-- Lowercasing of an ASCII letter, the lowercase setter of email paths. -/
def lowerChar (c : Char) : Char :=
  if 65 ≤ c.toNat ∧ c.toNat ≤ 90 then Char.ofNat (c.toNat + 32) else c

/-- Lowercasing of a string. -/
def jsToLower (s : String) : String :=
  ⟨s.toList.map lowerChar⟩

/-- Split of a character list at every occurrence of a separator. -/
def splitOnChar (sep : Char) : List Char → List (List Char)
  | [] => [[]]
  | c :: rest =>
      let r := splitOnChar sep rest
      if c = sep then [] :: r
      else
        match r with
        | h :: t => (c :: h) :: t
        | [] => [[c]]

/-- JavaScript parseInt on a string: trim, optional sign, then the longest
leading run of decimal digits; none models NaN. -/
def jsParseInt (s : String) : Option ℚ :=
  let t := jsTrimList s.toList
  let (neg, u) :=
    match t with
    | '-' :: rest => (true, rest)
    | '+' :: rest => (false, rest)
    | _ => (false, t)
  let ds := u.takeWhile Char.isDigit
  if ds.isEmpty then none
  else some (if neg then -(digitsToNat ds : ℚ) else (digitsToNat ds : ℚ))

/-- JavaScript Number cast of a string (the cast Mongoose applies to a
Number path): trim, empty becomes zero, otherwise the whole remaining
string must be a signed decimal numeral with an optional fraction part;
none models NaN and therefore a CastError at save time. -/
def jsNumberCast (s : String) : Option ℚ :=
  let t := jsTrimList s.toList
  if t.isEmpty then some 0
  else
    let (neg, u) :=
      match t with
      | '-' :: rest => (true, rest)
      | '+' :: rest => (false, rest)
      | _ => (false, t)
    match splitOnChar '.' u with
    | [a] =>
        if ¬ a.isEmpty ∧ a.all Char.isDigit then
          some (if neg then -(digitsToNat a : ℚ) else (digitsToNat a : ℚ))
        else none
    | [a, b] =>
        if (¬ a.isEmpty ∨ ¬ b.isEmpty) ∧ a.all Char.isDigit ∧ b.all Char.isDigit then
          let v : ℚ := (digitsToNat a : ℚ) + (digitsToNat b : ℚ) / ((10 : ℚ) ^ b.length)
          some (if neg then -v else v)
        else none
    | _ => none

/-- Truncation toward zero, the behaviour of parseInt applied to a number
(the number is stringified first, so the fraction digits are dropped). -/
def ratTrunc (q : ℚ) : ℚ :=
  if q ≥ 0 then (⌊q⌋ : ℚ) else (⌈q⌉ : ℚ)

/-- parseInt over a request value that may be a number or a string. -/
def jsValParseInt : JsVal → Option ℚ
  | .num q => some (ratTrunc q)
  | .str s => jsParseInt s

/-- Number cast over a request value that may be a number or a string. -/
def jsValNumberCast : JsVal → Option ℚ
  | .num q => some q
  | .str s => jsNumberCast s

/-- Local phone-number pattern of the Customer and Driver schemas: starts
with the zero digit and has ten or eleven digits in total. -/
def localPhoneOk (s : String) : Bool :=
  let cs := s.toList
  (cs.length = 10 || cs.length = 11) && cs.head? = some '0' && cs.all Char.isDigit

/-- Character admitted by the bracket class of the email pattern: anything
except whitespace and the at sign. -/
def emailChar (c : Char) : Bool :=
  !c.isWhitespace && c ≠ '@'

/-- Email pattern shared by the Booking and Customer schemas: one at sign
splitting the string into a nonempty local part and a domain that carries
a dot with at least one admitted character on each side. -/
def emailFormatOk (s : String) : Bool :=
  match splitOnChar '@' s.toList with
  | [a, b] =>
      !a.isEmpty && a.all emailChar && b.all emailChar &&
        ((b.drop 1).dropLast.contains '.')
  | _ => false

/-- Validity of an optional email field: absent or blank values pass, a
present value must match the email pattern. -/
def emailFieldOk (e : Option String) : Bool :=
  match e with
  | none => true
  | some v => jsTrim v = "" || emailFormatOk (jsTrim v)

/-- Absence test used by the conditionally required schema paths: an
optional string is blank when missing or empty. -/
def optBlank (o : Option String) : Bool :=
  match o with
  | none => true
  | some v => v = ""

/-- JavaScript truthiness of an optional string field. -/
def truthyS (o : Option String) : Bool :=
  match o with
  | none => false
  | some v => v ≠ ""

/-- Vehicle information subdocument of the driver schema. -/
structure VehicleInfo where
  vehicleType : String
  vehicleMake : String
  vehicleModel : String
  vehicleYear : Nat
  licensePlate : String
  vehicleColor : Option String
  deriving DecidableEq, Repr

/-- Driver document. -/
structure Driver where
  id : Nat
  name : String
  phone : String
  driverLicenseNumber : String
  vehicleInfo : VehicleInfo
  password : String
  isActive : Bool
  isVerified : Bool
  deriving DecidableEq, Repr

/-- Customer document, the denormalized phone-keyed profile. -/
structure Customer where
  id : Nat
  fullName : String
  email : Option String
  phoneNumber : String
  address : Option String
  notes : String
  isActive : Bool
  totalBookings : Nat
  lastBookingDate : Option Nat
  deriving DecidableEq, Repr

/-- Hotel document. -/
structure Hotel where
  id : Nat
  name : String
  address : String
  zone : String
  isActive : Bool
  deriving DecidableEq, Repr

/-- Booking document, the aggregate root of the lifecycle. -/
structure Booking where
  id : Nat
  fullName : String
  phoneNumber : String
  email : Option String
  hotel : Nat
  bookingType : String
  pickupLocationAddress : Option String
  arrivalTime : Option String
  numberOfBags : ℚ
  deviceId : String
  status : BStatus
  isPickedUp : Bool
  pickedUpAt : Option Nat
  assignedDriver : Option Nat
  notes : String
  confirmedBy : Option Nat
  confirmedAt : Option Nat
  completedAt : Option Nat
  completionImages : List String
  deriving DecidableEq, Repr

/-- Data store: the four collections the lifecycle reads and writes. -/
structure DB where
  bookings : List Booking
  drivers : List Driver
  customers : List Customer
  hotels : List Hotel
  deriving DecidableEq, Repr

/-- Lookup of a booking by identifier, the findById call. -/
def DB.findBooking (db : DB) (id : Nat) : Option Booking :=
  db.bookings.find? (fun b => b.id = id)

/-- Lookup of a driver by identifier. -/
def DB.findDriver (db : DB) (id : Nat) : Option Driver :=
  db.drivers.find? (fun d => d.id = id)

/-- Lookup of a hotel by identifier. -/
def DB.findHotel (db : DB) (id : Nat) : Option Hotel :=
  db.hotels.find? (fun h => h.id = id)

/-- Lookup of a customer by phone number, the findOne call keyed on the
phoneNumber path (the schema setter trims the query value). -/
def DB.findCustomerByPhone (db : DB) (phone : String) : Option Customer :=
  db.customers.find? (fun c => c.phoneNumber = jsTrim phone)

/-- Persisting a mutated booking document: replace by identifier. -/
def DB.setBooking (db : DB) (b : Booking) : DB :=
  { db with bookings := db.bookings.map (fun x => if x.id = b.id then b else x) }

/-- Persisting a mutated customer document: replace by identifier. -/
def DB.setCustomer (db : DB) (c : Customer) : DB :=
  { db with customers := db.customers.map (fun x => if x.id = c.id then c else x) }

/-- Inserting a freshly created booking document. -/
def DB.addBooking (db : DB) (b : Booking) : DB :=
  { db with bookings := db.bookings ++ [b] }

/-- Inserting a freshly created customer document. -/
def DB.addCustomer (db : DB) (c : Customer) : DB :=
  { db with customers := db.customers ++ [c] }

/-- Response shapes of the controllers, abstracting the JSON envelope. -/
inductive Resp
  | created (bookingId : Nat)
  | ok (msg : String)
  | notFound (msg : String)
  | badRequest (msg : String)
  | badRequestErrors (msgs : List String)
  | forbidden (msg : String)
  | serverError (msg : String)
  deriving DecidableEq, Repr

/-- Data over which the static validateBooking of the booking schema runs:
either a raw request body or a stored document merged with a patch. -/
structure BookingData where
  fullName : Option String
  phoneNumber : Option String
  hotel : Option Nat
  bookingType : Option String
  pickupLocationAddress : Option String
  arrivalTime : Option String
  numberOfBags : Option JsVal
  deviceId : Option String
  deriving DecidableEq, Repr

/-- Static validateBooking of the booking schema, field for field in source
order: presence and trim checks, the abstract phone check, the enum of
bookingType, the conditionally required address or time, the parseInt
range check on bags, and the device identifier. -/
def validateBooking (ivp : String → Bool) (d : BookingData) : List String :=
  (match d.fullName with
   | none => ["Full name is required"]
   | some v => if jsTrim v = "" then ["Full name is required"] else []) ++
  (match d.phoneNumber with
   | none => ["Phone number is required"]
   | some v =>
       if jsTrim v = "" then ["Phone number is required"]
       else if ¬ ivp (jsTrim v) then ["Invalid phone number format"] else []) ++
  (match d.hotel with
   | none => ["Hotel is required"]
   | some _ => []) ++
  (match d.bookingType with
   | none => ["Booking type is required"]
   | some bt =>
       if bt = "" then ["Booking type is required"]
       else if bt ≠ "Airport" ∧ bt ≠ "Other" then
         ["Booking type must be either Airport or Other"]
       else []) ++
  (if d.bookingType = some "Airport" then
     (match d.arrivalTime with
      | none => ["Arrival time is required for Airport bookings"]
      | some v => if jsTrim v = "" then ["Arrival time is required for Airport bookings"] else [])
   else if d.bookingType = some "Other" then
     (match d.pickupLocationAddress with
      | none => ["Pickup location address is required for Other bookings"]
      | some v =>
          if jsTrim v = "" then ["Pickup location address is required for Other bookings"] else [])
   else []) ++
  (match d.numberOfBags.bind jsValParseInt with
   | none => ["Number of bags must be between 1 and 5"]
   | some q => if q < 1 ∨ q > 5 then ["Number of bags must be between 1 and 5"] else []) ++
  (match d.deviceId with
   | none => ["Device ID is required"]
   | some v => if jsTrim v = "" then ["Device ID is required"] else [])

/-- Save-time validation of a full booking document: the path validators
of the booking schema (the stored values already passed the trim
setters). The status enumeration cannot fail because the status field is
already the enumerated type. -/
def bookingDocErrors (ivp : String → Bool) (b : Booking) : List String :=
  (if b.fullName = "" then ["Full name is required"] else []) ++
  (if b.phoneNumber = "" then ["Phone number is required"]
   else if ¬ ivp b.phoneNumber then ["Invalid phone number format"] else []) ++
  (if emailFieldOk b.email then [] else ["Invalid email format"]) ++
  (if b.bookingType ≠ "Airport" ∧ b.bookingType ≠ "Other" then
     ["Booking type is not in the enumeration"] else []) ++
  (if b.bookingType = "Other" ∧ optBlank b.pickupLocationAddress then
     ["Pickup location address is required"] else []) ++
  (if b.bookingType = "Airport" ∧ optBlank b.arrivalTime then
     ["Arrival time is required"] else []) ++
  (if b.numberOfBags < 1 then ["Number of bags must be at least 1"] else []) ++
  (if b.numberOfBags > 5 then ["Number of bags cannot exceed 5"] else []) ++
  (if b.deviceId = "" then ["Device ID is required"] else [])

/-- Save-time validation of a full customer document: required and
minlength on the name, the local phone pattern, the optional email. -/
def customerValidate (c : Customer) : List String :=
  (if c.fullName = "" then ["Full name is required"]
   else if c.fullName.length < 2 then ["Full name must be at least 2 characters"] else []) ++
  (if c.phoneNumber = "" then ["Phone number is required"]
   else if ¬ localPhoneOk c.phoneNumber then
     ["Invalid phone number format (must start with 0 and be 10-11 digits)"] else []) ++
  (if emailFieldOk c.email then [] else ["Invalid email format"])

/-- Request body of createBooking. -/
structure CreateReq where
  fullName : Option String
  phoneNumber : Option String
  email : Option String
  hotel : Option Nat
  bookingType : Option String
  pickupLocationAddress : Option String
  arrivalTime : Option String
  numberOfBags : Option JsVal
  deviceId : Option String
  deriving DecidableEq, Repr

/-- View of a createBooking request body as validateBooking input. -/
def CreateReq.toData (r : CreateReq) : BookingData :=
  { fullName := r.fullName
    phoneNumber := r.phoneNumber
    hotel := r.hotel
    bookingType := r.bookingType
    pickupLocationAddress := r.pickupLocationAddress
    arrivalTime := r.arrivalTime
    numberOfBags := r.numberOfBags
    deviceId := r.deviceId }

/-- Customer document the createBooking upsert writes: the existing
customer found by phone with refreshed name, optionally refreshed email,
incremented totalBookings and renewed lastBookingDate, or a fresh
customer when none exists under the phone. -/
def upsertCandidate (db : DB) (req : CreateReq) (now newCustomerId : Nat) : Customer :=
  match db.findCustomerByPhone (req.phoneNumber.getD "") with
  | some c =>
      { c with
        fullName := jsTrim (req.fullName.getD "")
        email := match req.email with
                 | some e => if e ≠ "" then some (jsToLower (jsTrim e)) else c.email
                 | none => c.email
        totalBookings := c.totalBookings + 1
        lastBookingDate := some now }
  | none =>
      { id := newCustomerId
        fullName := jsTrim (req.fullName.getD "")
        email := req.email.map (fun e => jsToLower (jsTrim e))
        phoneNumber := jsTrim (req.phoneNumber.getD "")
        address := none
        notes := ""
        isActive := true
        totalBookings := 1
        lastBookingDate := some now }

/-- Handler createBooking of bookingController.js: static validation, the
hotel existence and activity checks, the customer upsert keyed by phone,
then construction and save of the booking document. The two fresh
identifiers and the clock are arguments. A save that fails validation
answers with the error list and persists nothing further, so a booking
save failure leaves the customer upsert already applied. -/
def createBooking (ivp : String → Bool) (db : DB) (req : CreateReq)
    (now newCustomerId newBookingId : Nat) : Resp × DB :=
  let v := validateBooking ivp req.toData
  if v ≠ [] then (.badRequestErrors v, db)
  else
    match req.hotel with
    | none => (.badRequestErrors ["Hotel is required"], db)
    | some hid =>
      match db.findHotel hid with
      | none => (.notFound "Hotel not found", db)
      | some h =>
        if ¬ h.isActive then (.badRequest "Hotel is not active", db)
        else
          let phone := req.phoneNumber.getD ""
          let found := db.findCustomerByPhone phone
          let cand := upsertCandidate db req now newCustomerId
          let cerrs := customerValidate cand
          if cerrs ≠ [] then (.badRequestErrors cerrs, db)
          else
            let db1 := match found with
                       | some _ => db.setCustomer cand
                       | none => db.addCustomer cand
              let bagsCast := req.numberOfBags.bind jsValNumberCast
              let b : Booking :=
                { id := newBookingId
                  fullName := jsTrim (req.fullName.getD "")
                  phoneNumber := jsTrim phone
                  email := req.email.map (fun e => jsToLower (jsTrim e))
                  hotel := hid
                  bookingType :=
                    match req.bookingType with
                    | some bt => if bt = "" then "Airport" else bt
                    | none => "Airport"
                  pickupLocationAddress := req.pickupLocationAddress.map jsTrim
                  arrivalTime := req.arrivalTime.map jsTrim
                  numberOfBags := bagsCast.getD 0
                  deviceId := jsTrim (req.deviceId.getD "")
                  status := .pending
                  isPickedUp := false
                  pickedUpAt := none
                  assignedDriver := none
                  notes := ""
                  confirmedBy := none
                  confirmedAt := none
                  completedAt := none
                  completionImages := [] }
              let berrs :=
                (if bagsCast = none then ["Number of bags must be a number"] else []) ++
                  bookingDocErrors ivp b
              if berrs ≠ [] then (.badRequestErrors berrs, db1)
              else (.created newBookingId, db1.addBooking b)

/-- Handler confirmBooking of adminBookingController.js: only a pending
booking is confirmed; otherwise the current status is reported and
nothing is written. A save-time validation failure surfaces as the
generic 500 of the catch block. -/
def confirmBooking (ivp : String → Bool) (db : DB) (bookingId adminId now : Nat) :
    Resp × DB :=
  match db.findBooking bookingId with
  | none => (.notFound "Booking not found", db)
  | some b =>
    if b.status ≠ .pending then
      (.badRequest ("Booking is already " ++ b.status.str), db)
    else
      let b' := { b with status := .confirmed, confirmedBy := some adminId,
                         confirmedAt := some now }
      if bookingDocErrors ivp b' ≠ [] then
        (.serverError "Failed to confirm booking", db)
      else (.ok "Booking confirmed successfully", db.setBooking b')

/-- Handler assignDriver of adminBookingController.js: requires a driver
identifier, checks the driver exists and is active (and nothing else
about the driver), then forces the booking to assigned status regardless
of its current status. -/
def assignDriver (ivp : String → Bool) (db : DB) (bookingId : Nat)
    (driverId : Option Nat) : Resp × DB :=
  match driverId with
  | none => (.badRequest "Driver ID is required", db)
  | some did =>
    match db.findDriver did with
    | none => (.notFound "Driver not found", db)
    | some d =>
      if ¬ d.isActive then (.badRequest "Driver is not active", db)
      else
        match db.findBooking bookingId with
        | none => (.notFound "Booking not found", db)
        | some b =>
          let b' := { b with assignedDriver := some did, status := .assigned }
          if bookingDocErrors ivp b' ≠ [] then
            (.serverError "Failed to assign driver", db)
          else (.ok "Driver assigned successfully", db.setBooking b')

/-- Handler updateBookingStatus of adminBookingController.js: any of the
six enumerated statuses is accepted with no check of the prior status;
a completed status additionally forces isPickedUp. -/
def updateBookingStatusAdmin (ivp : String → Bool) (db : DB) (bookingId : Nat)
    (statusStr : Option String) : Resp × DB :=
  match statusStr with
  | none => (.badRequest "Status is required", db)
  | some s =>
    if s = "" then (.badRequest "Status is required", db)
    else
      match parseStatus s with
      | none =>
          (.badRequest
            "Invalid status. Must be one of: pending, confirmed, assigned, in_progress, completed, cancelled",
            db)
      | some st =>
        match db.findBooking bookingId with
        | none => (.notFound "Booking not found", db)
        | some b =>
          let b' := { b with status := st,
                             isPickedUp := if st = .completed then true else b.isPickedUp }
          if bookingDocErrors ivp b' ≠ [] then
            (.serverError "Failed to update booking status", db)
          else (.ok "Booking status updated successfully", db.setBooking b')

/-- Request body of the comprehensive admin update. The assignedDriver
field distinguishes absent (outer none), explicit null (some none) and a
driver identifier (some of some). -/
structure UpdateReq where
  fullName : Option String
  phoneNumber : Option String
  hotel : Option Nat
  bookingType : Option String
  pickupLocationAddress : Option String
  arrivalTime : Option String
  numberOfBags : Option JsVal
  status : Option String
  assignedDriver : Option (Option Nat)
  notes : Option String
  deriving DecidableEq, Repr

/-- Field-by-field validation pass of the comprehensive admin update, in
source order: phone format, bookingType enum, the conditionally required
time or address against the final merged bookingType, the parseInt range
on bags, the status enum, and existence plus activity of a non-null
assigned driver. -/
def adminUpdateErrors (ivp : String → Bool) (db : DB) (booking : Booking)
    (req : UpdateReq) : List String :=
  (match req.phoneNumber with
   | some p => if ¬ ivp (jsTrim p) then ["Invalid phone number format"] else []
   | none => []) ++
  (match req.bookingType with
   | some bt =>
       if bt ≠ "Airport" ∧ bt ≠ "Other" then
         ["Booking type must be either Airport or Other"]
       else []
   | none => []) ++
  (let finalBT := req.bookingType.getD booking.bookingType
   if finalBT = "Airport" then
     (if req.arrivalTime = none ∧ optBlank booking.arrivalTime then
        ["Arrival time is required for Airport bookings"] else [])
   else if finalBT = "Other" then
     (if req.pickupLocationAddress = none ∧ optBlank booking.pickupLocationAddress then
        ["Pickup location address is required for Other bookings"] else [])
   else []) ++
  (match req.numberOfBags with
   | some nb =>
       (match jsValParseInt nb with
        | none => ["Number of bags must be between 1 and 5"]
        | some q => if q < 1 ∨ q > 5 then ["Number of bags must be between 1 and 5"] else [])
   | none => []) ++
  (match req.status with
   | some s =>
       if parseStatus s = none then
         ["Invalid status. Must be one of: pending, confirmed, assigned, in_progress, completed, cancelled"]
       else []
   | none => []) ++
  (match req.assignedDriver with
   | some (some did) =>
       (match db.findDriver did with
        | none => ["Driver not found"]
        | some d => if ¬ d.isActive then ["Driver is not active"] else [])
   | _ => [])

/-- Update step for a provided fullName field. -/
def applyFullNameUpd (req : UpdateReq) (b : Booking) : Booking :=
  match req.fullName with
  | some v => { b with fullName := jsTrim v }
  | none => b

/-- Update step for a provided phoneNumber field. -/
def applyPhoneUpd (req : UpdateReq) (b : Booking) : Booking :=
  match req.phoneNumber with
  | some v => { b with phoneNumber := jsTrim v }
  | none => b

/-- Update step for a provided hotel field: the identifier is stored with
no existence or activity check. -/
def applyHotelUpd (req : UpdateReq) (b : Booking) : Booking :=
  match req.hotel with
  | some h => { b with hotel := h }
  | none => b

/-- Update step for a provided bookingType field. -/
def applyBookingTypeUpd (req : UpdateReq) (b : Booking) : Booking :=
  match req.bookingType with
  | some bt => { b with bookingType := bt }
  | none => b

/-- Update step for a provided pickupLocationAddress field. -/
def applyPickupUpd (req : UpdateReq) (b : Booking) : Booking :=
  match req.pickupLocationAddress with
  | some v => { b with pickupLocationAddress := some (jsTrim v) }
  | none => b

/-- Update step for a provided arrivalTime field. -/
def applyArrivalUpd (req : UpdateReq) (b : Booking) : Booking :=
  match req.arrivalTime with
  | some v => { b with arrivalTime := some (jsTrim v) }
  | none => b

/-- Update step for a provided numberOfBags field: the raw value goes
through the Number cast of the schema; a failed cast leaves a sentinel
that the save validation of the modified path reports. -/
def applyBagsUpd (req : UpdateReq) (b : Booking) : Booking :=
  match req.numberOfBags with
  | some nb => { b with numberOfBags := (jsValNumberCast nb).getD 0 }
  | none => b

/-- Update step for a provided status field, which also forces isPickedUp
for a completed status. -/
def applyStatusUpd (req : UpdateReq) (b : Booking) : Booking :=
  match req.status with
  | some s =>
      (match parseStatus s with
       | some st =>
           { b with status := st,
                    isPickedUp := if st = .completed then true else b.isPickedUp }
       | none => b)
  | none => b

/-- Update step for a provided assignedDriver field, with the
auto-advance rule: a non-null driver on a booking whose status is at
that point pending or confirmed forces the status to assigned. Because
this step runs after the status step, the rule examines the already
updated status. -/
def applyDriverUpd (req : UpdateReq) (b : Booking) : Booking :=
  match req.assignedDriver with
  | some ad =>
      let t := { b with assignedDriver := ad }
      if ad.isSome ∧ (t.status = .pending ∨ t.status = .confirmed) then
        { t with status := .assigned }
      else t
  | none => b

/-- Update step for a provided notes field. -/
def applyNotesUpd (req : UpdateReq) (b : Booking) : Booking :=
  match req.notes with
  | some n => { b with notes := jsTrim n }
  | none => b

/-- Application of the provided fields of a comprehensive admin update to
the loaded booking document, one step per field in source order. -/
def applyAdminUpdate (booking : Booking) (req : UpdateReq) : Booking :=
  applyNotesUpd req (applyDriverUpd req (applyStatusUpd req (applyBagsUpd req
    (applyArrivalUpd req (applyPickupUpd req (applyBookingTypeUpd req
      (applyHotelUpd req (applyPhoneUpd req (applyFullNameUpd req booking)))))))))

/-- Save-time validation of the comprehensive admin update, which saves
with validateModifiedOnly: only the provided paths are validated, and a
failed Number cast of the bags value surfaces here. -/
def saveModifiedErrors (ivp : String → Bool) (req : UpdateReq) (b : Booking) :
    List String :=
  (match req.fullName with
   | some _ => if b.fullName = "" then ["Full name is required"] else []
   | none => []) ++
  (match req.phoneNumber with
   | some _ =>
       if b.phoneNumber = "" then ["Phone number is required"]
       else if ¬ ivp b.phoneNumber then ["Invalid phone number format"] else []
   | none => []) ++
  (match req.bookingType with
   | some _ =>
       if b.bookingType ≠ "Airport" ∧ b.bookingType ≠ "Other" then
         ["Booking type is not in the enumeration"]
       else []
   | none => []) ++
  (match req.pickupLocationAddress with
   | some _ =>
       if b.bookingType = "Other" ∧ optBlank b.pickupLocationAddress then
         ["Pickup location address is required"]
       else []
   | none => []) ++
  (match req.arrivalTime with
   | some _ =>
       if b.bookingType = "Airport" ∧ optBlank b.arrivalTime then
         ["Arrival time is required"]
       else []
   | none => []) ++
  (match req.numberOfBags with
   | some nb =>
       (if jsValNumberCast nb = none then ["Number of bags must be a number"] else []) ++
         (if b.numberOfBags < 1 then ["Number of bags must be at least 1"] else []) ++
         (if b.numberOfBags > 5 then ["Number of bags cannot exceed 5"] else [])
   | none => [])

/-- Handler updateBooking of adminBookingController.js, the comprehensive
PUT override: load, validate every provided field, apply all of them, and
save with validateModifiedOnly. -/
def adminUpdateBooking (ivp : String → Bool) (db : DB) (bookingId : Nat)
    (req : UpdateReq) : Resp × DB :=
  match db.findBooking bookingId with
  | none => (.notFound "Booking not found", db)
  | some booking =>
    let errs := adminUpdateErrors ivp db booking req
    if errs ≠ [] then (.badRequestErrors errs, db)
    else
      let b' := applyAdminUpdate booking req
      let serrs := saveModifiedErrors ivp req b'
      if serrs ≠ [] then (.badRequestErrors serrs, db)
      else (.ok "Booking updated successfully", db.setBooking b')

/-- Handler markAsPickedUp of bookingController.js: the requesting driver
must be the assigned driver, the status must be assigned; the update is
written through findByIdAndUpdate with validators off. -/
def markAsPickedUp (db : DB) (bookingId driverId now : Nat) : Resp × DB :=
  match db.findBooking bookingId with
  | none => (.notFound "Booking not found", db)
  | some b =>
    if b.assignedDriver ≠ some driverId then
      (.forbidden "This booking is not assigned to you", db)
    else if b.status ≠ .assigned then
      (.badRequest ("Cannot mark as picked up. Current status: " ++ b.status.str), db)
    else
      let b' := { b with isPickedUp := true, pickedUpAt := some now,
                         status := .inProgress }
      (.ok "Booking marked as picked up successfully", db.setBooking b')

/-- Handler markAsCompleted of bookingController.js: same ownership check,
requires in_progress status, then stores the uploaded image references
(the route passes at most five) and stamps completion; written through
findByIdAndUpdate with validators off. -/
def markAsCompleted (db : DB) (bookingId driverId : Nat) (images : List String)
    (now : Nat) : Resp × DB :=
  match db.findBooking bookingId with
  | none => (.notFound "Booking not found", db)
  | some b =>
    if b.assignedDriver ≠ some driverId then
      (.forbidden "This booking is not assigned to you", db)
    else if b.status ≠ .inProgress then
      (.badRequest ("Cannot mark as completed. Current status: " ++ b.status.str ++
        ". Please mark as picked up first."), db)
    else
      let b' := { b with status := .completed, completedAt := some now,
                         completionImages := images }
      (.ok "Booking marked as completed successfully", db.setBooking b')

/-- Handler cancelBooking of bookingController.js: pending only. -/
def cancelBooking (ivp : String → Bool) (db : DB) (bookingId : Nat) : Resp × DB :=
  match db.findBooking bookingId with
  | none => (.notFound "Booking not found", db)
  | some b =>
    if b.status ≠ .pending then
      (.badRequest "Cannot cancel booking. Only pending bookings can be cancelled.", db)
    else
      let b' := { b with status := .cancelled }
      if bookingDocErrors ivp b' ≠ [] then
        (.serverError "Failed to cancel booking", db)
      else (.ok "Booking cancelled successfully", db.setBooking b')

/-- Request body of editBooking, restricted to its allow-listed fields. -/
structure EditReq where
  fullName : Option String
  phoneNumber : Option String
  email : Option String
  hotel : Option Nat
  bookingType : Option String
  pickupLocationAddress : Option String
  arrivalTime : Option String
  numberOfBags : Option JsVal
  deriving DecidableEq, Repr

/-- Presence of at least one recognized field in an editBooking patch. -/
def EditReq.hasAny (r : EditReq) : Bool :=
  r.fullName.isSome || r.phoneNumber.isSome || r.email.isSome || r.hotel.isSome ||
    r.bookingType.isSome || r.pickupLocationAddress.isSome || r.arrivalTime.isSome ||
    r.numberOfBags.isSome

/-- Merge of the stored booking document with an edit patch, the object
spread fed to validateBooking. -/
def mergedData (b : Booking) (r : EditReq) : BookingData :=
  { fullName := some (r.fullName.getD b.fullName)
    phoneNumber := some (r.phoneNumber.getD b.phoneNumber)
    hotel := some (r.hotel.getD b.hotel)
    bookingType := some (r.bookingType.getD b.bookingType)
    pickupLocationAddress :=
      match r.pickupLocationAddress with
      | some v => some v
      | none => b.pickupLocationAddress
    arrivalTime :=
      match r.arrivalTime with
      | some v => some v
      | none => b.arrivalTime
    numberOfBags := some (r.numberOfBags.getD (.num b.numberOfBags))
    deviceId := some b.deviceId }

/-- Booking document after Object.assign of an edit patch, with the schema
setters (trim, lowercase) applied by the assignments. A failed Number
cast of the bags value leaves a sentinel that the save validation
reports. -/
def applyEdit (b : Booking) (r : EditReq) : Booking :=
  { b with
    fullName := jsTrim (r.fullName.getD b.fullName)
    phoneNumber := jsTrim (r.phoneNumber.getD b.phoneNumber)
    email := match r.email with
             | some e => some (jsToLower (jsTrim e))
             | none => b.email
    hotel := r.hotel.getD b.hotel
    bookingType := r.bookingType.getD b.bookingType
    pickupLocationAddress :=
      match r.pickupLocationAddress with
      | some v => some (jsTrim v)
      | none => b.pickupLocationAddress
    arrivalTime :=
      match r.arrivalTime with
      | some v => some (jsTrim v)
      | none => b.arrivalTime
    numberOfBags :=
      match r.numberOfBags with
      | some nb => (jsValNumberCast nb).getD 0
      | none => b.numberOfBags }

/-- Handler editBooking of bookingController.js: pending bookings only;
validates the merged data with the static validateBooking, re-checks a
changed hotel, saves the booking, and only then runs the customer-sync
block. That block compares the patch phone against the phone of the
already mutated booking document, so with a trimmed patch phone the
changed-phone branch never runs; the else branch refreshes the customer
found under the phone now stored on the booking. -/
def editBooking (ivp : String → Bool) (db : DB) (bookingId : Nat) (req : EditReq)
    (now newCustomerId : Nat) : Resp × DB :=
  match db.findBooking bookingId with
  | none => (.notFound "Booking not found", db)
  | some booking =>
    if booking.status ≠ .pending then
      (.badRequest "Cannot edit booking. Only pending bookings can be edited.", db)
    else if ¬ req.hasAny then
      (.badRequest "No valid fields to update", db)
    else
      let verrs := validateBooking ivp (mergedData booking req)
      if verrs ≠ [] then (.badRequestErrors verrs, db)
      else
        let hotelCheck : Option Resp :=
          match req.hotel with
          | some h =>
              if h ≠ booking.hotel then
                (match db.findHotel h with
                 | none => some (.notFound "Hotel not found")
                 | some ht => if ¬ ht.isActive then some (.badRequest "Hotel is not active") else none)
              else none
          | none => none
        match hotelCheck with
        | some r => (r, db)
        | none =>
          let b' := applyEdit booking req
          let serrs :=
            (match req.numberOfBags with
             | some nb => if jsValNumberCast nb = none then ["Number of bags must be a number"] else []
             | none => []) ++ bookingDocErrors ivp b'
          if serrs ≠ [] then (.badRequestErrors serrs, db)
          else
            let db1 := db.setBooking b'
            if truthyS req.phoneNumber ∧ req.phoneNumber ≠ some b'.phoneNumber then
              match db1.findCustomerByPhone (req.phoneNumber.getD "") with
              | some c =>
                  let c' : Customer :=
                    { c with
                      fullName :=
                        jsTrim
                          (match req.fullName with
                           | some f => if f ≠ "" then f else b'.fullName
                           | none => b'.fullName)
                      email := match req.email with
                               | some e => if e ≠ "" then some (jsToLower (jsTrim e)) else c.email
                               | none => c.email }
                  if customerValidate c' ≠ [] then (.badRequestErrors (customerValidate c'), db1)
                  else (.ok "Booking updated successfully", db1.setCustomer c')
              | none =>
                  let c' : Customer :=
                    { id := newCustomerId
                      fullName :=
                        jsTrim
                          (match req.fullName with
                           | some f => if f ≠ "" then f else b'.fullName
                           | none => b'.fullName)
                      email := match req.email with
                               | some e => if e ≠ "" then some (jsToLower (jsTrim e)) else b'.email
                               | none => b'.email
                      phoneNumber := jsTrim (req.phoneNumber.getD "")
                      address := none
                      notes := ""
                      isActive := true
                      totalBookings := 1
                      lastBookingDate := some now }
                  if customerValidate c' ≠ [] then (.badRequestErrors (customerValidate c'), db1)
                  else (.ok "Booking updated successfully", db1.addCustomer c')
            else if truthyS req.fullName ∨ truthyS req.email then
              match db1.findCustomerByPhone b'.phoneNumber with
              | some c =>
                  let c' : Customer :=
                    { c with
                      fullName := match req.fullName with
                                  | some f => if f ≠ "" then jsTrim f else c.fullName
                                  | none => c.fullName
                      email := match req.email with
                               | some e => if e ≠ "" then some (jsToLower (jsTrim e)) else c.email
                               | none => c.email }
                  if customerValidate c' ≠ [] then (.badRequestErrors (customerValidate c'), db1)
                  else (.ok "Booking updated successfully", db1.setCustomer c')
              | none => (.ok "Booking updated successfully", db1)
            else (.ok "Booking updated successfully", db1)

/-- JSON-like value for modelling document serialization. -/
inductive JLite
  | s (v : String)
  | b (v : Bool)
  | n (v : Nat)
  | obj (kvs : List (String × JLite))

/-- Serialized form of the vehicle information subdocument. -/
def VehicleInfo.toObj (vi : VehicleInfo) : JLite :=
  .obj [("vehicleType", .s vi.vehicleType), ("vehicleMake", .s vi.vehicleMake),
        ("vehicleModel", .s vi.vehicleModel), ("vehicleYear", .n vi.vehicleYear),
        ("licensePlate", .s vi.licensePlate),
        ("vehicleColor", .s (vi.vehicleColor.getD ""))]

/-- Plain object form of a driver document before the toJSON transform:
every schema path, the password hash included. -/
def driverToObject (d : Driver) : List (String × JLite) :=
  [("_id", .n d.id), ("name", .s d.name), ("phone", .s d.phone),
   ("driverLicenseNumber", .s d.driverLicenseNumber),
   ("vehicleInfo", d.vehicleInfo.toObj), ("password", .s d.password),
   ("isActive", .b d.isActive), ("isVerified", .b d.isVerified), ("__v", .n 0)]

/-- The toJSON transform of the driver schema: add the stringified id and
delete the _id, __v and password keys. -/
def driverJSONTransform (idStr : String) (ret : List (String × JLite)) :
    List (String × JLite) :=
  (("id", JLite.s idStr) :: ret).filter
    (fun kv => kv.1 ≠ "_id" ∧ kv.1 ≠ "__v" ∧ kv.1 ≠ "password")

/-- Serialization of a driver document into a response, as Express
performs it through the toJSON transform of the schema. -/
def Driver.toJSON (d : Driver) : List (String × JLite) :=
  driverJSONTransform (toString d.id) (driverToObject d)

/-- Data payload of the getDriverById handler on its success path. -/
def getDriverByIdData (db : DB) (driverId : Nat) : Option (List (String × JLite)) :=
  (db.findDriver driverId).map Driver.toJSON

/-! Shared facts about the store operations and the update stages. -/

/-- Lemma: a found booking carries the identifier it was looked up by. -/
theorem findBooking_id {db : DB} {bid : Nat} {b : Booking}
    (h : db.findBooking bid = some b) : b.id = bid := by
  have := List.find?_some h
  simpa using this

/-- Lemma: replacing the found document by identifier makes the
replacement the one found afterwards. -/
theorem find?_map_replace (l : List Booking) (bid : Nat) (b b' : Booking)
    (h : l.find? (fun x => x.id = bid) = some b) (hid : b'.id = bid) :
    (l.map (fun x => if x.id = b'.id then b' else x)).find? (fun x => x.id = bid) =
      some b' := by
  induction l with
  | nil => simp at h
  | cons a t ih =>
    simp only [List.map_cons, List.find?]
    by_cases hd : a.id = b'.id
    · simp only [if_pos hd, show decide (b'.id = bid) = true from by simp [hid]]
    · have ha : ¬ a.id = bid := by
        intro hh
        exact hd (by rw [hh, ← hid])
      have h1 : t.find? (fun x => x.id = bid) = some b := by
        simp only [List.find?] at h
        simpa [ha] using h
      simp only [if_neg hd, show decide (a.id = bid) = false from by simp [ha]]
      exact ih h1

/-- Lemma: the booking found after setBooking is the written document. -/
theorem findBooking_setBooking {db : DB} {bid : Nat} {b : Booking}
    (h : db.findBooking bid = some b) (b' : Booking) (hid : b'.id = bid) :
    (db.setBooking b').findBooking bid = some b' :=
  find?_map_replace db.bookings bid b b' h hid

/-- Lemma: the fullName step keeps the identifier, status, hotel and
completion images of the document. -/
theorem applyFullNameUpd_keeps (req : UpdateReq) (b : Booking) :
    (applyFullNameUpd req b).id = b.id ∧ (applyFullNameUpd req b).status = b.status ∧
      (applyFullNameUpd req b).hotel = b.hotel ∧
      (applyFullNameUpd req b).completionImages = b.completionImages := by
  cases h : req.fullName <;> simp [applyFullNameUpd, h]

/-- Lemma: the phoneNumber step keeps identifier, status, hotel, images. -/
theorem applyPhoneUpd_keeps (req : UpdateReq) (b : Booking) :
    (applyPhoneUpd req b).id = b.id ∧ (applyPhoneUpd req b).status = b.status ∧
      (applyPhoneUpd req b).hotel = b.hotel ∧
      (applyPhoneUpd req b).completionImages = b.completionImages := by
  cases h : req.phoneNumber <;> simp [applyPhoneUpd, h]

/-- Lemma: the hotel step keeps identifier, status and images, and stores
the provided hotel value when one is present. -/
theorem applyHotelUpd_keeps (req : UpdateReq) (b : Booking) :
    (applyHotelUpd req b).id = b.id ∧ (applyHotelUpd req b).status = b.status ∧
      (applyHotelUpd req b).hotel = req.hotel.getD b.hotel ∧
      (applyHotelUpd req b).completionImages = b.completionImages := by
  cases h : req.hotel <;> simp [applyHotelUpd, h]

/-- Lemma: the bookingType step keeps identifier, status, hotel, images. -/
theorem applyBookingTypeUpd_keeps (req : UpdateReq) (b : Booking) :
    (applyBookingTypeUpd req b).id = b.id ∧ (applyBookingTypeUpd req b).status = b.status ∧
      (applyBookingTypeUpd req b).hotel = b.hotel ∧
      (applyBookingTypeUpd req b).completionImages = b.completionImages := by
  cases h : req.bookingType <;> simp [applyBookingTypeUpd, h]

/-- Lemma: the pickup address step keeps identifier, status, hotel, images. -/
theorem applyPickupUpd_keeps (req : UpdateReq) (b : Booking) :
    (applyPickupUpd req b).id = b.id ∧ (applyPickupUpd req b).status = b.status ∧
      (applyPickupUpd req b).hotel = b.hotel ∧
      (applyPickupUpd req b).completionImages = b.completionImages := by
  cases h : req.pickupLocationAddress <;> simp [applyPickupUpd, h]

/-- Lemma: the arrival time step keeps identifier, status, hotel, images. -/
theorem applyArrivalUpd_keeps (req : UpdateReq) (b : Booking) :
    (applyArrivalUpd req b).id = b.id ∧ (applyArrivalUpd req b).status = b.status ∧
      (applyArrivalUpd req b).hotel = b.hotel ∧
      (applyArrivalUpd req b).completionImages = b.completionImages := by
  cases h : req.arrivalTime <;> simp [applyArrivalUpd, h]

/-- Lemma: the bags step keeps identifier, status, hotel, images. -/
theorem applyBagsUpd_keeps (req : UpdateReq) (b : Booking) :
    (applyBagsUpd req b).id = b.id ∧ (applyBagsUpd req b).status = b.status ∧
      (applyBagsUpd req b).hotel = b.hotel ∧
      (applyBagsUpd req b).completionImages = b.completionImages := by
  cases h : req.numberOfBags <;> simp [applyBagsUpd, h]

/-- Lemma: the status step keeps identifier, hotel and images, and its
resulting status is the parsed provided status when there is one. -/
theorem applyStatusUpd_keeps (req : UpdateReq) (b : Booking) :
    (applyStatusUpd req b).id = b.id ∧ (applyStatusUpd req b).hotel = b.hotel ∧
      (applyStatusUpd req b).completionImages = b.completionImages ∧
      (applyStatusUpd req b).status =
        (match req.status with
         | some s => (parseStatus s).getD b.status
         | none => b.status) := by
  cases h : req.status with
  | none => simp [applyStatusUpd, h]
  | some s => cases hp : parseStatus s <;> simp [applyStatusUpd, h, hp]

/-- Lemma: the assignedDriver step keeps identifier, hotel and images, and
applies the auto-advance rule to the status it receives. -/
theorem applyDriverUpd_keeps (req : UpdateReq) (b : Booking) :
    (applyDriverUpd req b).id = b.id ∧ (applyDriverUpd req b).hotel = b.hotel ∧
      (applyDriverUpd req b).completionImages = b.completionImages ∧
      (applyDriverUpd req b).status =
        (match req.assignedDriver with
         | some ad =>
             if ad.isSome ∧ (b.status = .pending ∨ b.status = .confirmed) then .assigned
             else b.status
         | none => b.status) := by
  cases h : req.assignedDriver with
  | none => simp [applyDriverUpd, h]
  | some ad =>
    by_cases hc : ad.isSome ∧ (b.status = .pending ∨ b.status = .confirmed) <;>
      simp [applyDriverUpd, h, hc]

/-- Lemma: the notes step keeps identifier, status, hotel and images. -/
theorem applyNotesUpd_keeps (req : UpdateReq) (b : Booking) :
    (applyNotesUpd req b).id = b.id ∧ (applyNotesUpd req b).status = b.status ∧
      (applyNotesUpd req b).hotel = b.hotel ∧
      (applyNotesUpd req b).completionImages = b.completionImages := by
  cases h : req.notes <;> simp [applyNotesUpd, h]

/-- Lemma: the comprehensive update keeps the document identifier. -/
theorem applyAdminUpdate_id (b : Booking) (req : UpdateReq) :
    (applyAdminUpdate b req).id = b.id := by
  unfold applyAdminUpdate
  rw [(applyNotesUpd_keeps _ _).1, (applyDriverUpd_keeps _ _).1,
    (applyStatusUpd_keeps _ _).1, (applyBagsUpd_keeps _ _).1,
    (applyArrivalUpd_keeps _ _).1, (applyPickupUpd_keeps _ _).1,
    (applyBookingTypeUpd_keeps _ _).1, (applyHotelUpd_keeps _ _).1,
    (applyPhoneUpd_keeps _ _).1, (applyFullNameUpd_keeps _ _).1]

/-- Lemma: the status the comprehensive update computes is the supplied
parsed status (or the current one), auto-advanced to assigned when a
non-null driver is supplied and that status is pending or confirmed. -/
theorem applyAdminUpdate_status (b : Booking) (req : UpdateReq) :
    (applyAdminUpdate b req).status =
      (let s' := match req.status with
                 | some s => (parseStatus s).getD b.status
                 | none => b.status
       match req.assignedDriver with
       | some ad => if ad.isSome ∧ (s' = .pending ∨ s' = .confirmed) then .assigned else s'
       | none => s') := by
  unfold applyAdminUpdate
  rw [(applyNotesUpd_keeps _ _).2.1, (applyDriverUpd_keeps _ _).2.2.2,
    (applyStatusUpd_keeps _ _).2.2.2, (applyBagsUpd_keeps _ _).2.1,
    (applyArrivalUpd_keeps _ _).2.1, (applyPickupUpd_keeps _ _).2.1,
    (applyBookingTypeUpd_keeps _ _).2.1, (applyHotelUpd_keeps _ _).2.1,
    (applyPhoneUpd_keeps _ _).2.1, (applyFullNameUpd_keeps _ _).2.1]

/-- Lemma: the comprehensive update stores the provided hotel identifier
and no later step changes it. -/
theorem applyAdminUpdate_hotel (b : Booking) (req : UpdateReq) :
    (applyAdminUpdate b req).hotel = req.hotel.getD b.hotel := by
  unfold applyAdminUpdate
  rw [(applyNotesUpd_keeps _ _).2.2.1, (applyDriverUpd_keeps _ _).2.1,
    (applyStatusUpd_keeps _ _).2.1, (applyBagsUpd_keeps _ _).2.2.1,
    (applyArrivalUpd_keeps _ _).2.2.1, (applyPickupUpd_keeps _ _).2.2.1,
    (applyBookingTypeUpd_keeps _ _).2.2.1, (applyHotelUpd_keeps _ _).2.2.1,
    (applyPhoneUpd_keeps _ _).2.2.1, (applyFullNameUpd_keeps _ _).2.2.1]

/-- Status rule of the amended claim C4, written from the spec sentence as
corrected: the update persists status assigned exactly when a non-null
assignedDriver is supplied and the status obtained after applying any
supplied status (the supplied one if present, the current one otherwise)
is still pending or confirmed; any other supplied status is persisted as
given. -/
def autoAdvancedStatus (cur : BStatus) (req : UpdateReq) : BStatus :=
  let s' := match req.status with
            | some s => (parseStatus s).getD cur
            | none => cur
  if (req.assignedDriver.getD none).isSome ∧ (s' = .pending ∨ s' = .confirmed) then .assigned
  else s'

/-- Lemma: the status computed by the code equals the amended rule. -/
theorem applyAdminUpdate_status_spec (b : Booking) (req : UpdateReq) :
    (applyAdminUpdate b req).status = autoAdvancedStatus b.status req := by
  rw [applyAdminUpdate_status]
  unfold autoAdvancedStatus
  cases h : req.assignedDriver <;> simp [h]

/-! Concrete fixtures used by witnesses and counterexamples. -/

/-- Vehicle fixture. -/
def vi0 : VehicleInfo :=
  { vehicleType := "car", vehicleMake := "Toyota", vehicleModel := "Vios",
    vehicleYear := 2020, licensePlate := "51A12345", vehicleColor := none }

/-- Driver fixture: active but not verified. -/
def drv7 : Driver :=
  { id := 7, name := "Nam Tran", phone := "0909000001", driverLicenseNumber := "ABCDE",
    vehicleInfo := vi0, password := "hashedpw", isActive := true, isVerified := false }

/-- Driver fixture: inactive (and verified). -/
def drv9 : Driver :=
  { id := 9, name := "Binh Le", phone := "0909000002", driverLicenseNumber := "FGHIJ",
    vehicleInfo := vi0, password := "hashedpw2", isActive := false, isVerified := true }

/-- Hotel fixture: active. -/
def hot1 : Hotel :=
  { id := 1, name := "Hotel One", address := "1 Street", zone := "zone1", isActive := true }

/-- Hotel fixture: inactive. -/
def hot2 : Hotel :=
  { id := 2, name := "Hotel Two", address := "2 Street", zone := "zone2", isActive := false }

/-- Booking fixture: pending, no driver. -/
def bk0 : Booking :=
  { id := 10, fullName := "An Nguyen", phoneNumber := "0912345678", email := none,
    hotel := 1, bookingType := "Airport", pickupLocationAddress := none,
    arrivalTime := some "14:00", numberOfBags := 3, deviceId := "d1",
    status := .pending, isPickedUp := false, pickedUpAt := none, assignedDriver := none,
    notes := "", confirmedBy := none, confirmedAt := none, completedAt := none,
    completionImages := [] }

/-- Booking fixture: already confirmed. -/
def bkConfirmed : Booking :=
  { bk0 with id := 11, status := .confirmed, confirmedBy := some 1, confirmedAt := some 90 }

/-- Booking fixture: in progress, assigned to driver 7. -/
def bkInProgress : Booking :=
  { bk0 with id := 12, status := .inProgress, assignedDriver := some 7,
             isPickedUp := true, pickedUpAt := some 95 }

/-- Main store fixture. -/
def dbMain : DB :=
  { bookings := [bk0, bkConfirmed, bkInProgress], drivers := [drv7, drv9],
    customers := [], hotels := [hot1, hot2] }

/-- Empty comprehensive-update request. -/
def emptyUpdateReq : UpdateReq :=
  { fullName := none, phoneNumber := none, hotel := none, bookingType := none,
    pickupLocationAddress := none, arrivalTime := none, numberOfBags := none,
    status := none, assignedDriver := none, notes := none }

/-- Empty edit request. -/
def emptyEditReq : EditReq :=
  { fullName := none, phoneNumber := none, email := none, hotel := none,
    bookingType := none, pickupLocationAddress := none, arrivalTime := none,
    numberOfBags := none }

/-- Empty create request. -/
def reqEmpty : CreateReq :=
  { fullName := none, phoneNumber := none, email := none, hotel := none,
    bookingType := none, pickupLocationAddress := none, arrivalTime := none,
    numberOfBags := none, deviceId := none }

/-- Valid airport create request for the main fixtures. -/
def reqCreateOk : CreateReq :=
  { reqEmpty with
    fullName := some "An Nguyen", phoneNumber := some "0912345678", hotel := some 1,
    bookingType := some "Airport", arrivalTime := some "14:00",
    numberOfBags := some (.num 3), deviceId := some "d1" }

/-! Claim C6. -/

/-- Claim C6: confirmBooking on an existing booking that is not pending
fails reporting the current status and writes nothing (so status,
confirmedBy and confirmedAt are unchanged); on a pending booking it sets
status confirmed, confirmedBy to the acting admin and confirmedAt to the
current time. -/
theorem C6_confirmBooking (ivp : String → Bool) (db : DB) (bid aid now : Nat)
    (b : Booking) (hb : db.findBooking bid = some b) :
    (b.status ≠ .pending →
      confirmBooking ivp db bid aid now =
        (.badRequest ("Booking is already " ++ b.status.str), db)) ∧
    (b.status = .pending → bookingDocErrors ivp b = [] →
      confirmBooking ivp db bid aid now =
        (.ok "Booking confirmed successfully",
         db.setBooking { b with status := .confirmed, confirmedBy := some aid,
                                confirmedAt := some now })) := by
  constructor
  · intro hns
    unfold confirmBooking
    rw [hb]
    simp [hns]
  · intro hp hval
    unfold confirmBooking
    rw [hb]
    have hsame : bookingDocErrors ivp
        { b with status := .confirmed, confirmedBy := some aid, confirmedAt := some now } =
        bookingDocErrors ivp b := rfl
    simp [hp, hsame, hval]

/-- Witness for C6 at the main fixtures: the confirmed booking is
rejected with its status in the message, the pending one transitions. -/
theorem C6_confirmBooking_witness :
    confirmBooking localPhoneOk dbMain 11 1 100 =
      (.badRequest ("Booking is already " ++ bkConfirmed.status.str), dbMain) ∧
    confirmBooking localPhoneOk dbMain 10 1 100 =
      (.ok "Booking confirmed successfully",
       dbMain.setBooking { bk0 with status := .confirmed, confirmedBy := some 1,
                                    confirmedAt := some 100 }) :=
  ⟨(C6_confirmBooking localPhoneOk dbMain 11 1 100 bkConfirmed (by decide)).1 (by decide),
   (C6_confirmBooking localPhoneOk dbMain 10 1 100 bk0 (by decide)).2 (by decide) (by decide)⟩

/-! Claim C8. -/

/-- Claim C8: markAsPickedUp by a driver who is not the assigned driver of
the booking, the null assignment included, answers forbidden and leaves
the store unchanged, so status, isPickedUp and pickedUpAt keep their
values. -/
theorem C8_markAsPickedUp_forbidden (db : DB) (bid did now : Nat) (b : Booking)
    (hb : db.findBooking bid = some b) (hnot : b.assignedDriver ≠ some did) :
    markAsPickedUp db bid did now = (.forbidden "This booking is not assigned to you", db) := by
  unfold markAsPickedUp
  rw [hb]
  simp [hnot]

/-- Witness for C8: driver 7 on the unassigned pending booking. -/
theorem C8_markAsPickedUp_forbidden_witness :
    markAsPickedUp dbMain 10 7 100 =
      (.forbidden "This booking is not assigned to you", dbMain) :=
  C8_markAsPickedUp_forbidden dbMain 10 7 100 bk0 (by decide) (by decide)

/-! Claim C7. -/

/-- Claim C7: markAsCompleted by the assigned driver succeeds exactly when
the prior status is in_progress; success stamps completedAt, stores the
uploaded image references, and with the route cap of five uploads the
stored list has between zero and five entries. -/
theorem C7_markAsCompleted (db : DB) (bid did now : Nat) (images : List String)
    (b : Booking) (hb : db.findBooking bid = some b)
    (hown : b.assignedDriver = some did) (hlen : images.length ≤ 5) :
    ((markAsCompleted db bid did images now).1 =
        .ok "Booking marked as completed successfully" ↔ b.status = .inProgress) ∧
    (b.status = .inProgress →
      markAsCompleted db bid did images now =
        (.ok "Booking marked as completed successfully",
         db.setBooking { b with status := .completed, completedAt := some now,
                                completionImages := images })) ∧
    (b.status = .inProgress →
      ((markAsCompleted db bid did images now).2.findBooking bid).map
          Booking.completionImages = some images ∧ images.length ≤ 5) := by
  have hmain : ∀ _ : b.status = .inProgress,
      markAsCompleted db bid did images now =
        (.ok "Booking marked as completed successfully",
         db.setBooking { b with status := .completed, completedAt := some now,
                                completionImages := images }) := by
    intro hip
    unfold markAsCompleted
    rw [hb]
    simp [hown, hip]
  refine ⟨⟨fun hok => ?_, fun hip => by rw [hmain hip]⟩, hmain, fun hip => ?_⟩
  · by_contra hns
    unfold markAsCompleted at hok
    rw [hb] at hok
    simp [hown, hns] at hok
  · rw [hmain hip]
    refine ⟨?_, hlen⟩
    have h2 := findBooking_setBooking hb
      { b with status := .completed, completedAt := some now, completionImages := images }
      (by simpa using findBooking_id hb)
    simp [h2]

/-- Witness for C7: the in-progress booking of the main fixtures completed
by its assigned driver with two images. -/
theorem C7_markAsCompleted_witness :
    markAsCompleted dbMain 12 7 ["uploads/completion-images/a.jpg",
        "uploads/completion-images/b.jpg"] 100 =
      (.ok "Booking marked as completed successfully",
       dbMain.setBooking
         { bkInProgress with
             status := .completed, completedAt := some 100,
             completionImages := ["uploads/completion-images/a.jpg",
               "uploads/completion-images/b.jpg"] }) :=
  (C7_markAsCompleted dbMain 12 7 100 ["uploads/completion-images/a.jpg",
      "uploads/completion-images/b.jpg"] bkInProgress (by decide) (by decide)
      (by decide)).2.1 (by decide)

/-! Claim C1. -/

/-- Counterexample to claim C1: driver 7 is active but not verified, yet
assignDriver accepts him and mutates the booking to assigned, where the
claim requires rejection and an unchanged booking. -/
theorem C1_counterexample :
    drv7.isActive = true ∧ drv7.isVerified = false ∧
    dbMain.findDriver 7 = some drv7 ∧
    (assignDriver localPhoneOk dbMain 10 (some 7)).1 = Resp.ok "Driver assigned successfully" ∧
    ((assignDriver localPhoneOk dbMain 10 (some 7)).2.findBooking 10).map Booking.status =
      some BStatus.assigned := by decide

/-- Amended claim C1: assignment in both paths checks only existence and
isActive of the driver, never isVerified; a missing or inactive driver is
rejected with the store unchanged, and an active driver is accepted
whether or not verified. -/
theorem C1_amended (ivp : String → Bool) (db : DB) (bid did : Nat) :
    (db.findDriver did = none →
      assignDriver ivp db bid (some did) = (.notFound "Driver not found", db)) ∧
    (∀ d, db.findDriver did = some d → ¬ d.isActive →
      assignDriver ivp db bid (some did) = (.badRequest "Driver is not active", db) ∧
      ∀ req : UpdateReq, req.assignedDriver = some (some did) →
        (adminUpdateBooking ivp db bid req).2 = db) ∧
    (∀ d b, db.findDriver did = some d → d.isActive → db.findBooking bid = some b →
      bookingDocErrors ivp b = [] →
      assignDriver ivp db bid (some did) =
        (.ok "Driver assigned successfully",
         db.setBooking { b with assignedDriver := some did, status := .assigned })) := by
  refine ⟨fun hnone => ?_, fun d hd hact => ⟨?_, fun req hreq => ?_⟩, fun d b hd hact hb hval => ?_⟩
  · simp [assignDriver, hnone]
  · simp [assignDriver, hd, hact]
  · unfold adminUpdateBooking
    cases hfb : db.findBooking bid with
    | none => rfl
    | some booking =>
      have hne : adminUpdateErrors ivp db booking req ≠ [] := by
        intro hnil
        unfold adminUpdateErrors at hnil
        rw [hreq] at hnil
        simp [hd, hact, List.append_eq_nil] at hnil
      simp [hne]
  · have hsame : bookingDocErrors ivp
        { b with assignedDriver := some did, status := .assigned } =
        bookingDocErrors ivp b := rfl
    simp [assignDriver, hd, hact, hb, hsame, hval]

/-- Witness for the amended claim C1 at the fixtures: unknown driver is
not found, inactive driver 9 is rejected both ways with nothing written,
active unverified driver 7 is accepted. -/
theorem C1_amended_witness :
    assignDriver localPhoneOk dbMain 10 (some 99) = (.notFound "Driver not found", dbMain) ∧
    assignDriver localPhoneOk dbMain 10 (some 9) = (.badRequest "Driver is not active", dbMain) ∧
    (adminUpdateBooking localPhoneOk dbMain 10
        { emptyUpdateReq with assignedDriver := some (some 9) }).2 = dbMain ∧
    assignDriver localPhoneOk dbMain 10 (some 7) =
      (.ok "Driver assigned successfully",
       dbMain.setBooking { bk0 with assignedDriver := some 7, status := .assigned }) :=
  ⟨(C1_amended localPhoneOk dbMain 10 99).1 (by decide),
   ((C1_amended localPhoneOk dbMain 10 9).2.1 drv9 (by decide) (by decide)).1,
   ((C1_amended localPhoneOk dbMain 10 9).2.1 drv9 (by decide) (by decide)).2
     { emptyUpdateReq with assignedDriver := some (some 9) } (by decide),
   (C1_amended localPhoneOk dbMain 10 7).2.2 drv7 bk0 (by decide) (by decide) (by decide)
     (by decide)⟩

/-! Claim C4. -/

/-- Update request of the C4 counterexample: explicit status confirmed
together with a non-null driver. -/
def updReqC4 : UpdateReq :=
  { emptyUpdateReq with status := some "confirmed", assignedDriver := some (some 7) }

/-- Counterexample to claim C4: the caller explicitly supplies status
confirmed, a different status than assigned, together with a non-null
driver on a pending booking, and the persisted status is assigned rather
than the supplied one, because the auto-advance rule runs after the
supplied status has been applied and still sees pending or confirmed. -/
theorem C4_counterexample :
    bk0.status = BStatus.pending ∧
    updReqC4.status = some "confirmed" ∧
    updReqC4.assignedDriver = some (some 7) ∧
    parseStatus "confirmed" = some BStatus.confirmed ∧
    (adminUpdateBooking localPhoneOk dbMain 10 updReqC4).1 =
      Resp.ok "Booking updated successfully" ∧
    ((adminUpdateBooking localPhoneOk dbMain 10 updReqC4).2.findBooking 10).map Booking.status =
      some BStatus.assigned := by decide

/-- Amended claim C4: on a pending or confirmed booking, a comprehensive
update that persists and supplies a non-null assignedDriver stores the
status given by the auto-advance rule applied after the supplied status:
assigned exactly when the supplied status (or, absent one, the current
status) is pending or confirmed, and otherwise the supplied status as
given. -/
theorem C4_amended (ivp : String → Bool) (db : DB) (bid : Nat) (req : UpdateReq)
    (b : Booking) (hb : db.findBooking bid = some b)
    (hcur : b.status = .pending ∨ b.status = .confirmed)
    (did : Nat) (had : req.assignedDriver = some (some did))
    (hok : (adminUpdateBooking ivp db bid req).1 = .ok "Booking updated successfully") :
    ((adminUpdateBooking ivp db bid req).2.findBooking bid).map Booking.status =
      some (autoAdvancedStatus b.status req) := by
  unfold adminUpdateBooking at hok ⊢
  rw [hb] at hok ⊢
  by_cases h1 : adminUpdateErrors ivp db b req = []
  · by_cases h2 : saveModifiedErrors ivp req (applyAdminUpdate b req) = []
    · have h3 := findBooking_setBooking hb (applyAdminUpdate b req)
        (by rw [applyAdminUpdate_id]; exact findBooking_id hb)
      simp [h1, h2, h3, applyAdminUpdate_status_spec]
    · exfalso
      simp [h1, h2] at hok
  · exfalso
    simp [h1] at hok

/-- Witness for the amended claim C4 at the counterexample input. -/
theorem C4_amended_witness :
    ((adminUpdateBooking localPhoneOk dbMain 10 updReqC4).2.findBooking 10).map Booking.status =
      some (autoAdvancedStatus bk0.status updReqC4) :=
  C4_amended localPhoneOk dbMain 10 updReqC4 bk0 (by decide) (Or.inl (by decide)) 7
    (by decide) (by decide)

/-! Claim C3. -/

/-- Edit patch of the C3 analysis: the phone number changes to a value
with no Customer record. -/
def editC3 : EditReq :=
  { emptyEditReq with phoneNumber := some "0987654321" }

/-- Claim C3 evaluated at the failing input: a pending booking whose patch
changes the phone to a fresh value succeeds and stores the new phone on
the booking, yet the customers collection stays empty, because the
changed-phone branch compares the patch phone against the phone of the
already mutated booking document and therefore never runs for a trimmed
patch phone, and the else branch needs a name or email in the patch. The
spec requires a Customer keyed by the new phone to exist afterwards. -/
theorem C3_phone_change_no_upsert :
    dbMain.customers = [] ∧
    (bk0.status = BStatus.pending ∧ bk0.phoneNumber = "0912345678") ∧
    editC3.phoneNumber = some "0987654321" ∧
    (editBooking localPhoneOk dbMain 10 editC3 100 50).1 = Resp.ok "Booking updated successfully" ∧
    ((editBooking localPhoneOk dbMain 10 editC3 100 50).2.findBooking 10).map
        Booking.phoneNumber = some "0987654321" ∧
    (editBooking localPhoneOk dbMain 10 editC3 100 50).2.customers = [] := by decide

/-! Claim C5. -/

/-- Create request of the C5 counterexample: every up-front check passes,
parseInt reads the bags value 3abc as 3, but the Number cast the schema
applies at save time yields NaN, so the booking save fails after the
customer upsert has been persisted. -/
def reqC5 : CreateReq :=
  { reqEmpty with
    fullName := some "An Nguyen", phoneNumber := some "0912345678", hotel := some 1,
    bookingType := some "Airport", arrivalTime := some "14:00",
    numberOfBags := some (.str "3abc"), deviceId := some "d1" }

/-- Counterexample to claim C5: this createBooking request fails with a
validation-error response, no booking is written, yet the customers
collection has changed, the upsert having run before the booking save. -/
theorem C5_counterexample :
    (createBooking localPhoneOk dbMain reqC5 100 50 60).1 =
      Resp.badRequestErrors ["Number of bags must be a number",
        "Number of bags must be at least 1"] ∧
    (createBooking localPhoneOk dbMain reqC5 100 50 60).2.bookings = dbMain.bookings ∧
    (createBooking localPhoneOk dbMain reqC5 100 50 60).2.customers ≠ dbMain.customers := by
  decide

/-- Amended claim C5: a failing createBooking never creates a Booking, and
every failure detected by the up-front validator, the hotel existence and
activity checks, or the Customer save leaves the store entirely
unchanged; only a request that passes all of those and fails at Booking
persistence leaves the Customer upsert applied. -/
theorem C5_amended (ivp : String → Bool) (db : DB) (req : CreateReq) (now cid bid : Nat) :
    ((createBooking ivp db req now cid bid).1 = .created bid ∨
      (createBooking ivp db req now cid bid).2.bookings = db.bookings) ∧
    (validateBooking ivp req.toData ≠ [] →
      createBooking ivp db req now cid bid =
        (.badRequestErrors (validateBooking ivp req.toData), db)) ∧
    (∀ hid, req.hotel = some hid → validateBooking ivp req.toData = [] →
      db.findHotel hid = none →
      createBooking ivp db req now cid bid = (.notFound "Hotel not found", db)) ∧
    (∀ hid h, req.hotel = some hid → validateBooking ivp req.toData = [] →
      db.findHotel hid = some h → ¬ h.isActive →
      createBooking ivp db req now cid bid = (.badRequest "Hotel is not active", db)) ∧
    (∀ hid h, req.hotel = some hid → validateBooking ivp req.toData = [] →
      db.findHotel hid = some h → h.isActive →
      customerValidate (upsertCandidate db req now cid) ≠ [] →
      createBooking ivp db req now cid bid =
        (.badRequestErrors (customerValidate (upsertCandidate db req now cid)), db)) := by
  refine ⟨?_, fun hv => ?_, fun hid hh hv hf => ?_, fun hid h hh hv hf hact => ?_,
    fun hid h hh hv hf hact hcv => ?_⟩
  · by_cases hv : validateBooking ivp req.toData = []
    · unfold createBooking
      simp only [hv]
      repeat' split
      all_goals first
        | (left; rfl)
        | (right; rfl)
    · right
      simp [createBooking, hv]
  · simp [createBooking, hv]
  · simp [createBooking, hv, hh, hf]
  · simp [createBooking, hv, hh, hf, hact]
  · simp [createBooking, hv, hh, hf, hact, hcv]

/-- Witness for the amended claim C5: the empty request fails validation
with nothing written, and a request naming an unknown hotel fails the
existence check with nothing written. -/
theorem C5_amended_witness :
    createBooking localPhoneOk dbMain reqEmpty 1 2 3 =
      (.badRequestErrors (validateBooking localPhoneOk reqEmpty.toData), dbMain) ∧
    createBooking localPhoneOk dbMain { reqCreateOk with hotel := some 99 } 1 2 3 =
      (.notFound "Hotel not found", dbMain) ∧
    createBooking localPhoneOk dbMain { reqCreateOk with hotel := some 2 } 1 2 3 =
      (.badRequest "Hotel is not active", dbMain) :=
  ⟨(C5_amended localPhoneOk dbMain reqEmpty 1 2 3).2.1 (by decide),
   (C5_amended localPhoneOk dbMain { reqCreateOk with hotel := some 99 } 1 2 3).2.2.1 99
     (by decide) (by decide) (by decide),
   (C5_amended localPhoneOk dbMain { reqCreateOk with hotel := some 2 } 1 2 3).2.2.2.1 2 hot2
     (by decide) (by decide) (by decide) (by decide)⟩

/-! Claim C9. -/

/-- Claim C9: the comprehensive admin update performs no existence or
activity check on a supplied hotel value: whenever the update persists,
the supplied hotel identifier is stored even when it names no hotel or an
inactive one; createBooking and editBooking, in contrast, reject a
nonexistent or inactive hotel with nothing written. -/
theorem C9_hotel_unchecked (ivp : String → Bool) (db : DB) :
    (∀ bid req b hid, db.findBooking bid = some b → req.hotel = some hid →
      (db.findHotel hid = none ∨ ∃ ht, db.findHotel hid = some ht ∧ ¬ ht.isActive) →
      (adminUpdateBooking ivp db bid req).1 = .ok "Booking updated successfully" →
      ((adminUpdateBooking ivp db bid req).2.findBooking bid).map Booking.hotel = some hid) ∧
    (∀ req now cid bid hid, req.hotel = some hid → validateBooking ivp req.toData = [] →
      db.findHotel hid = none →
      createBooking ivp db req now cid bid = (.notFound "Hotel not found", db)) ∧
    (∀ req now cid bid hid ht, req.hotel = some hid → validateBooking ivp req.toData = [] →
      db.findHotel hid = some ht → ¬ ht.isActive →
      createBooking ivp db req now cid bid = (.badRequest "Hotel is not active", db)) ∧
    (∀ bid req b hid now cid, db.findBooking bid = some b → b.status = .pending →
      req.hasAny → validateBooking ivp (mergedData b req) = [] →
      req.hotel = some hid → hid ≠ b.hotel → db.findHotel hid = none →
      editBooking ivp db bid req now cid = (.notFound "Hotel not found", db)) ∧
    (∀ bid req b hid ht now cid, db.findBooking bid = some b → b.status = .pending →
      req.hasAny → validateBooking ivp (mergedData b req) = [] →
      req.hotel = some hid → hid ≠ b.hotel → db.findHotel hid = some ht → ¬ ht.isActive →
      editBooking ivp db bid req now cid = (.badRequest "Hotel is not active", db)) := by
  refine ⟨fun bid req b hid hb hh hbad hok => ?_,
    fun req now cid bid hid hh hv hf => by simp [createBooking, hv, hh, hf],
    fun req now cid bid hid ht hh hv hf hact => by simp [createBooking, hv, hh, hf, hact],
    fun bid req b hid now cid hb hp hany hv hh hne hf => ?_,
    fun bid req b hid ht now cid hb hp hany hv hh hne hf hact => ?_⟩
  · unfold adminUpdateBooking at hok ⊢
    rw [hb] at hok ⊢
    by_cases h1 : adminUpdateErrors ivp db b req = []
    · by_cases h2 : saveModifiedErrors ivp req (applyAdminUpdate b req) = []
      · have h3 := findBooking_setBooking hb (applyAdminUpdate b req)
          (by rw [applyAdminUpdate_id]; exact findBooking_id hb)
        simp [h1, h2, h3, applyAdminUpdate_hotel, hh]
      · exfalso
        simp [h1, h2] at hok
    · exfalso
      simp [h1] at hok
  · unfold editBooking
    rw [hb]
    simp [hp, hany, hv, hh, hne, hf]
  · unfold editBooking
    rw [hb]
    simp [hp, hany, hv, hh, hne, hf, hact]

/-- Update request of the C9 witness: only a hotel value, naming no
stored hotel. -/
def updReqC9 : UpdateReq :=
  { emptyUpdateReq with hotel := some 99 }

/-- Witness for claim C9: at the fixtures, hotel 99 exists nowhere, yet
the comprehensive update persists it onto the booking; the same unknown
hotel is rejected by createBooking. -/
theorem C9_hotel_unchecked_witness :
    ((adminUpdateBooking localPhoneOk dbMain 10 updReqC9).2.findBooking 10).map
        Booking.hotel = some 99 ∧
    createBooking localPhoneOk dbMain { reqCreateOk with hotel := some 99 } 4 5 6 =
      (.notFound "Hotel not found", dbMain) :=
  ⟨(C9_hotel_unchecked localPhoneOk dbMain).1 10 updReqC9 bk0 99 (by decide) (by decide)
     (Or.inl (by decide)) (by decide),
   (C9_hotel_unchecked localPhoneOk dbMain).2.1 { reqCreateOk with hotel := some 99 } 4 5 6 99
     (by decide) (by decide) (by decide)⟩

/-! Claim C10. -/

/-- Claim C10: the toJSON transform of the driver schema removes the
password field, so no driver document serialized into a response carries
a password key; in particular the data payload of getDriverById never
does. -/
theorem C10_password_never_serialized :
    (∀ d : Driver, "password" ∉ (Driver.toJSON d).map Prod.fst) ∧
    (∀ (db : DB) (did : Nat) (out : List (String × JLite)),
      getDriverByIdData db did = some out → "password" ∉ out.map Prod.fst) := by
  have h1 : ∀ d : Driver, "password" ∉ (Driver.toJSON d).map Prod.fst := by
    intro d
    simp [Driver.toJSON, driverJSONTransform, driverToObject]
  refine ⟨h1, fun db did out hout => ?_⟩
  unfold getDriverByIdData at hout
  cases hfd : db.findDriver did with
  | none => rw [hfd] at hout; simp at hout
  | some d =>
    rw [hfd] at hout
    simp at hout
    rw [← hout]
    exact h1 d

/-- Witness for claim C10 at the fixtures: the serialized driver 7 has no
password key. -/
theorem C10_password_never_serialized_witness :
    getDriverByIdData dbMain 7 = some (Driver.toJSON drv7) ∧
    "password" ∉ (Driver.toJSON drv7).map Prod.fst :=
  ⟨rfl, (C10_password_never_serialized).2 dbMain 7 (Driver.toJSON drv7) rfl⟩

/-! Claim C2. -/

/-- Invariant sentence of claim C2 on one booking: a non-empty
completionImages list only with completed status. -/
def imagesInv (b : Booking) : Bool :=
  b.completionImages.isEmpty || b.status == BStatus.completed

/-- Invariant of claim C2 over every booking of the store. -/
def dbImagesInv (db : DB) : Bool :=
  db.bookings.all imagesInv

/-- Lemma: a found booking of an invariant store satisfies the invariant. -/
theorem imagesInv_of_find {db : DB} {bid : Nat} {b : Booking}
    (hinv : dbImagesInv db = true) (hb : db.findBooking bid = some b) :
    imagesInv b = true := by
  have hmem : b ∈ db.bookings := List.mem_of_find?_eq_some hb
  exact List.all_eq_true.mp hinv b hmem

/-- Lemma: a booking satisfying the invariant with a status other than
completed has no completion images. -/
theorem images_empty_of_inv {b : Booking} (hbinv : imagesInv b = true)
    (hns : ¬ b.status = .completed) : b.completionImages = [] := by
  simp [imagesInv] at hbinv
  tauto

/-- Lemma: writing an invariant-satisfying document preserves the store
invariant. -/
theorem dbImagesInv_setBooking {db : DB} (hinv : dbImagesInv db = true) {b' : Booking}
    (hb' : imagesInv b' = true) : dbImagesInv (db.setBooking b') = true := by
  simp only [dbImagesInv, DB.setBooking, List.all_map, List.all_eq_true,
    Function.comp] at hinv ⊢
  intro x hx
  by_cases hid : x.id = b'.id
  · simpa [hid] using hb'
  · simpa [hid] using hinv x hx

/-- Lemma: inserting an invariant-satisfying document preserves the store
invariant. -/
theorem dbImagesInv_addBooking {db : DB} (hinv : dbImagesInv db = true) {b : Booking}
    (hb : imagesInv b = true) : dbImagesInv (db.addBooking b) = true := by
  simp only [dbImagesInv, DB.addBooking, List.all_append, List.all_cons, List.all_nil,
    Bool.and_true, Bool.and_eq_true] at hinv ⊢
  exact ⟨hinv, hb⟩

/-- Lemma: createBooking preserves the invariant, the created booking
having an empty image list. -/
theorem c2aux_create (ivp : String → Bool) (db : DB) (req : CreateReq)
    (now cid bid : Nat) (hinv : dbImagesInv db = true) :
    dbImagesInv (createBooking ivp db req now cid bid).2 = true := by
  by_cases hv : validateBooking ivp req.toData = []
  · unfold createBooking
    simp only [hv]
    repeat' split
    all_goals
      first
        | exact hinv
        | exact dbImagesInv_addBooking hinv (by simp [imagesInv])
  · have h := congrArg Prod.snd (show createBooking ivp db req now cid bid =
      (.badRequestErrors (validateBooking ivp req.toData), db) by
        simp [createBooking, hv])
    rw [h]
    exact hinv

/-- Lemma: confirmBooking preserves the invariant. -/
theorem c2aux_confirm (ivp : String → Bool) (db : DB) (bid aid now : Nat)
    (hinv : dbImagesInv db = true) :
    dbImagesInv (confirmBooking ivp db bid aid now).2 = true := by
  unfold confirmBooking
  cases hb : db.findBooking bid with
  | none => exact hinv
  | some b =>
    by_cases hp : b.status = .pending
    · have himg : b.completionImages = [] :=
        images_empty_of_inv (imagesInv_of_find hinv hb) (by simp [hp])
      simp only [hp]
      split
      · exact hinv
      · split
        · exact hinv
        · exact dbImagesInv_setBooking hinv (by simp [imagesInv, himg])
    · simp [hp, hinv]

/-- Lemma: cancelBooking preserves the invariant. -/
theorem c2aux_cancel (ivp : String → Bool) (db : DB) (bid : Nat)
    (hinv : dbImagesInv db = true) :
    dbImagesInv (cancelBooking ivp db bid).2 = true := by
  unfold cancelBooking
  cases hb : db.findBooking bid with
  | none => exact hinv
  | some b =>
    by_cases hp : b.status = .pending
    · have himg : b.completionImages = [] :=
        images_empty_of_inv (imagesInv_of_find hinv hb) (by simp [hp])
      simp only [hp]
      split
      · exact hinv
      · split
        · exact hinv
        · exact dbImagesInv_setBooking hinv (by simp [imagesInv, himg])
    · simp [hp, hinv]

set_option maxHeartbeats 2000000 in
/-- Lemma: editBooking preserves the invariant, the edit touching neither
status nor completionImages. -/
theorem c2aux_edit (ivp : String → Bool) (db : DB) (bid : Nat) (req : EditReq)
    (now cid : Nat) (hinv : dbImagesInv db = true) :
    dbImagesInv (editBooking ivp db bid req now cid).2 = true := by
  unfold editBooking
  cases hb : db.findBooking bid with
  | none => exact hinv
  | some b =>
    by_cases hp : b.status = .pending
    · have himg : b.completionImages = [] :=
        images_empty_of_inv (imagesInv_of_find hinv hb) (by simp [hp])
      have hdb1 : dbImagesInv (db.setBooking (applyEdit b req)) = true :=
        dbImagesInv_setBooking hinv (by simp [imagesInv, applyEdit, himg])
      simp only [hp]
      repeat' split
      all_goals
        first
          | exact hinv
          | exact hdb1
    · simp [hp, hinv]

/-- Lemma: markAsPickedUp preserves the invariant. -/
theorem c2aux_pickup (db : DB) (bid did now : Nat) (hinv : dbImagesInv db = true) :
    dbImagesInv (markAsPickedUp db bid did now).2 = true := by
  unfold markAsPickedUp
  cases hb : db.findBooking bid with
  | none => exact hinv
  | some b =>
    by_cases hown : b.assignedDriver = some did
    · by_cases hst : b.status = .assigned
      · have himg : b.completionImages = [] :=
          images_empty_of_inv (imagesInv_of_find hinv hb) (by simp [hst])
        simp only [hown, hst]
        simp
        exact dbImagesInv_setBooking hinv (by simp [imagesInv, himg])
      · simp [hown, hst, hinv]
    · simp [hown, hinv]

/-- Lemma: markAsCompleted preserves and in fact establishes the
invariant, the status becoming completed exactly when images are stored. -/
theorem c2aux_complete (db : DB) (bid did : Nat) (images : List String) (now : Nat)
    (hinv : dbImagesInv db = true) :
    dbImagesInv (markAsCompleted db bid did images now).2 = true := by
  unfold markAsCompleted
  cases hb : db.findBooking bid with
  | none => exact hinv
  | some b =>
    by_cases hown : b.assignedDriver = some did
    · by_cases hst : b.status = .inProgress
      · simp only [hown, hst]
        simp
        exact dbImagesInv_setBooking hinv (by simp [imagesInv])
      · simp [hown, hst, hinv]
    · simp [hown, hinv]

/-- Store after a createBooking on the main fixtures. -/
def c2Step1 : DB := (createBooking localPhoneOk dbMain reqCreateOk 100 50 60).2

/-- Store after the admin confirmation of the created booking. -/
def c2Step2 : DB := (confirmBooking localPhoneOk c2Step1 60 1 101).2

/-- Store after assigning driver 7 to the booking. -/
def c2Step3 : DB := (assignDriver localPhoneOk c2Step2 60 (some 7)).2

/-- Store after driver 7 marks the booking picked up. -/
def c2Step4 : DB := (markAsPickedUp c2Step3 60 7 102).2

/-- Store after driver 7 completes the booking with one image. -/
def c2Step5 : DB :=
  (markAsCompleted c2Step4 60 7 ["uploads/completion-images/a.jpg"] 103).2

/-- Store after the admin status override back to pending. -/
def c2Step6 : DB := (updateBookingStatusAdmin localPhoneOk c2Step5 60 (some "pending")).2

/-- Counterexample to claim C2: along a run of the modelled operations
from an invariant store, the admin UpdateStatus override moves the
completed booking back to pending without clearing its completionImages,
so the reachable store c2Step6 violates the invariant: the booking is
pending with a non-empty image list. -/
theorem C2_counterexample :
    dbImagesInv dbMain = true ∧
    dbImagesInv c2Step5 = true ∧
    dbImagesInv c2Step6 = false ∧
    (c2Step6.findBooking 60).map (fun b => (b.status, b.completionImages)) =
      some (BStatus.pending, ["uploads/completion-images/a.jpg"]) := by decide

/-- Amended claim C2: the invariant that completionImages is non-empty
only with completed status is preserved by every customer-facing and
driver-facing operation (create, confirm, cancel, edit, pick up,
complete); it is not an invariant of the whole system, because the admin
override paths can move a completed booking to another status while
leaving its completionImages in place. -/
theorem C2_amended (ivp : String → Bool) (db : DB) (hinv : dbImagesInv db = true) :
    (∀ req now cid bid, dbImagesInv (createBooking ivp db req now cid bid).2 = true) ∧
    (∀ bid aid now, dbImagesInv (confirmBooking ivp db bid aid now).2 = true) ∧
    (∀ bid, dbImagesInv (cancelBooking ivp db bid).2 = true) ∧
    (∀ bid req now cid, dbImagesInv (editBooking ivp db bid req now cid).2 = true) ∧
    (∀ bid did now, dbImagesInv (markAsPickedUp db bid did now).2 = true) ∧
    (∀ bid did images now, dbImagesInv (markAsCompleted db bid did images now).2 = true) :=
  ⟨fun req now cid bid => c2aux_create ivp db req now cid bid hinv,
   fun bid aid now => c2aux_confirm ivp db bid aid now hinv,
   fun bid => c2aux_cancel ivp db bid hinv,
   fun bid req now cid => c2aux_edit ivp db bid req now cid hinv,
   fun bid did now => c2aux_pickup db bid did now hinv,
   fun bid did images now => c2aux_complete db bid did images now hinv⟩

/-- Witness for the amended claim C2 at the main fixtures. -/
theorem C2_amended_witness :
    dbImagesInv (markAsCompleted dbMain 12 7 ["uploads/completion-images/a.jpg"] 100).2 =
      true ∧
    dbImagesInv (confirmBooking localPhoneOk dbMain 10 1 100).2 = true :=
  ⟨(C2_amended localPhoneOk dbMain (by decide)).2.2.2.2.2 12 7
     ["uploads/completion-images/a.jpg"] 100,
   (C2_amended localPhoneOk dbMain (by decide)).2.1 10 1 100⟩
